import Mathlib

/-!
Shallow embedding of the data-aggregation and ranking module of the
solar-challenge dashboard (`app/utils.py`): the per-country CSV loader
`load_country_data`, the multi-country aggregator `load_all_countries_data`,
the comparison-projection helper `create_comparison_boxplot`, and the
ranking engine `create_ghi_ranking_table`.

Modelling choices:
* numeric metric values are rationals (ℚ); timestamps are strings;
* a pandas DataFrame is a column-name list plus a row list; a row carries its
  timestamp (the index), its `Country` tag and a metric-name → value mapping;
  a metric missing from a row models a NaN cell (`GHI > 50` is false on NaN,
  and group means skip NaN, matching pandas);
* the file system is a finite map from path strings to file contents, a file
  being either parseable CSV data or malformed (so `pd.read_csv` raises);
* `st.error` side effects are collected as a diagnostics list in the result;
* `groupby('Country')` iterates group keys in sorted order (pandas default
  `sort=True`), and `.sort_values(ascending=False)` is a stable descending
  sort; both are realised with the stable structural `List.insertionSort`;
* the `@st.cache_data` memoisation decorator is modelled as an explicit
  cache-state-passing wrapper around the loader.
-/

/-- One measurement row: the `Timestamp` index value, the `Country` column
added by the loader, and the remaining numeric columns as an association
list from metric name to value. A metric absent from the list models NaN. -/
structure Row where
  timestamp : String
  entity : String
  metrics : List (String × ℚ)
deriving DecidableEq, Repr

/-- Look up one metric value in a row; `none` models a NaN / missing cell. -/
def Row.get (r : Row) (m : String) : Option ℚ :=
  r.metrics.lookup m

/-- A DataFrame: the list of column names (other than the `Timestamp` index)
and the list of rows. -/
structure DataFrame where
  cols : List String
  rows : List Row
deriving DecidableEq, Repr

/-- The empty DataFrame `pd.DataFrame()`. -/
def emptyDF : DataFrame := ⟨[], []⟩

/-- Pandas `df.empty` for the frames arising here: no rows. -/
def DataFrame.isEmptyDF (df : DataFrame) : Bool := df.rows.isEmpty

/-- Successfully parsed CSV content: the data columns (besides `Timestamp`)
and the raw rows (timestamp plus metric values). -/
structure CSVData where
  cols : List String
  rows : List (String × List (String × ℚ))
deriving DecidableEq, Repr

/-- Contents of a file on disk: either CSV data that `pd.read_csv` parses, or
malformed content making `pd.read_csv` raise with the given message. -/
inductive FileContent where
  | parsed (csv : CSVData)
  | malformed (msg : String)
deriving DecidableEq, Repr

/-- The file system: a finite map from path strings to file contents. -/
structure FileSystem where
  files : List (String × FileContent)
deriving DecidableEq, Repr

/-- Path lookup; `isSome` models `os.path.exists`. -/
def FileSystem.lookup (fs : FileSystem) (p : String) : Option FileContent :=
  fs.files.lookup p

/-- Reading and parsing a file: `pd.read_csv(path, index_col='Timestamp',
parse_dates=True)`. An error value models a raised exception. -/
def read_file (fs : FileSystem) (p : String) : Except String CSVData :=
  match fs.lookup p with
  | some (.parsed csv) => .ok csv
  | some (.malformed m) => .error m
  | none => .error "FileNotFoundError"

/-- The fixed `filename_map` dictionary of `load_country_data`:
`dict.get` returns `None` on any other key. -/
def filename_map (country_name : String) : Option String :=
  if country_name = "Benin" then some "benin_clean.csv"
  else if country_name = "Sierra Leone" then some "sierraleone_clean.csv"
  else if country_name = "Togo" then some "togo_clean.csv"
  else none

/-- First candidate path: `os.path.join(os.path.dirname(__file__), '..',
'data', filename)`, relative to the module directory. -/
def modulePath (moduleDir filename : String) : String :=
  moduleDir ++ "/../data/" ++ filename

/-- Second candidate path: `os.path.join("data", filename)`, relative to the
working directory. -/
def cwdPath (filename : String) : String :=
  "data/" ++ filename

/-- The two-step path resolution of `load_country_data`: the module-relative
path if it exists, else the cwd-relative path if it exists, else nothing. -/
def resolve_path (fs : FileSystem) (moduleDir filename : String) : Option String :=
  if (fs.lookup (modulePath moduleDir filename)).isSome then
    some (modulePath moduleDir filename)
  else if (fs.lookup (cwdPath filename)).isSome then
    some (cwdPath filename)
  else none

/-- Stamping the parsed frame with `df['Country'] = country_name`. -/
def stampDf (country_name : String) (csv : CSVData) : DataFrame :=
  ⟨csv.cols ++ ["Country"],
   csv.rows.map (fun rr => ⟨rr.1, country_name, rr.2⟩)⟩

/-- Diagnostic emitted by `except Exception as e` in `load_country_data`. -/
def loadErrMsg (country_name e : String) : String :=
  "Error loading data for " ++ country_name ++ ": " ++ e

/-- Diagnostic emitted when neither candidate path exists. -/
def pathErrMsg (filename : String) : String :=
  "Could not determine path for data file " ++ filename ++
    ". Checked relative and root paths."

/-- Result of one `load_country_data` call: the returned frame, the
`st.error` diagnostics emitted, the number of `os.path.exists` probes made,
and the number of file reads (`pd.read_csv` invocations) performed. -/
structure LoadResult where
  df : DataFrame
  errors : List String
  pathChecks : Nat
  reads : Nat
deriving DecidableEq, Repr

/-- The per-country loader `load_country_data` (uncached body). Unknown
country names return the empty frame before any path probing; for known
names the two candidate paths are tried in order, and any read/parse failure
is caught and converted to an empty frame plus a diagnostic. The function is
total: no exception escapes. -/
def load_country_data (fs : FileSystem) (moduleDir country_name : String) :
    LoadResult :=
  match filename_map country_name with
  | none => ⟨emptyDF, [], 0, 0⟩
  | some filename =>
    let checks : Nat :=
      if (fs.lookup (modulePath moduleDir filename)).isSome then 1 else 2
    match resolve_path fs moduleDir filename with
    | some p =>
      match read_file fs p with
      | .ok csv => ⟨stampDf country_name csv, [], checks, 1⟩
      | .error e => ⟨emptyDF, [loadErrMsg country_name e], checks, 1⟩
    | none => ⟨emptyDF, [pathErrMsg filename], checks, 0⟩

/-- Memoisation state of the `@st.cache_data` decorator on
`load_country_data`: the per-argument cache of returned frames, plus a
running count of file reads performed (the instrumentation hook). -/
structure CacheState where
  cache : List (String × DataFrame)
  reads : Nat
deriving DecidableEq, Repr

/-- The cached loader as the caller sees it: `@st.cache_data` replays the
memoised frame on a key hit and only runs the body (reading the file) on a
miss, recording the result under the argument key. -/
def load_country_data_cached (fs : FileSystem) (moduleDir country_name : String)
    (s : CacheState) : DataFrame × CacheState :=
  match s.cache.lookup country_name with
  | some df => (df, s)
  | none =>
    let r := load_country_data fs moduleDir country_name
    (r.df, ⟨(country_name, r.df) :: s.cache, s.reads + r.reads⟩)

/-- Pandas `pd.concat(dfs, ignore_index=False)`: raises `ValueError` on an
empty list of objects; otherwise unions the columns and concatenates the
rows in order, keeping each row (and its timestamp index value) unchanged. -/
def pd_concat : List DataFrame → Except String DataFrame
  | [] => .error "No objects to concatenate"
  | dfs => .ok ⟨(dfs.flatMap (·.cols)).eraseDups, dfs.flatMap (·.rows)⟩

/-- The aggregator `load_all_countries_data`: loads each country in list
order, keeps only non-empty frames, returns the empty frame if none survived
(guarding the otherwise-raising `pd.concat`), else concatenates. An error
value would model an uncaught exception escaping to the caller. -/
def load_all_countries_data (fs : FileSystem) (moduleDir : String)
    (country_list : List String) : Except String DataFrame :=
  let all_dfs := (country_list.map
      (fun c => (load_country_data fs moduleDir c).df)).filter
      (fun df => !df.isEmptyDF)
  if all_dfs.isEmpty then .ok emptyDF
  else pd_concat all_dfs

/-- The figure produced by `px.box(df_combined, x='Country', y=metric, ...)`:
the (Country, metric) projection of the rows, plus the title. -/
structure BoxFig where
  points : List (String × Option ℚ)
  metric : String
  title : String
deriving DecidableEq, Repr

/-- The comparison-projection helper `create_comparison_boxplot`: `none`
models the `return None` on an empty frame or a missing metric column. -/
def create_comparison_boxplot (df_combined : DataFrame)
    (metric title : String) : Option BoxFig :=
  if df_combined.isEmptyDF || !(df_combined.cols.contains metric) then none
  else some ⟨df_combined.rows.map (fun r => (r.entity, r.get metric)),
             metric, title⟩

/-- The productivity filter of the ranking engine: row kept when its GHI cell
is present and strictly above 50 (`df_combined['GHI'] > 50`; NaN compares
false). -/
def rowPassesGhi (r : Row) : Bool :=
  match r.get "GHI" with
  | some v => decide (50 < v)
  | none => false

/-- The filtered frame rows `df_daytime = df_combined[df_combined['GHI'] > 50]`. -/
def daytimeRows (df : DataFrame) : List Row :=
  df.rows.filter rowPassesGhi

/-- Code-point lexicographic comparison of character lists, the order Python
uses to compare the country-name strings. -/
def charListLe : List Char → List Char → Bool
  | [], _ => true
  | _ :: _, [] => false
  | a :: as, b :: bs =>
    if a.toNat < b.toNat then true
    else if b.toNat < a.toNat then false
    else charListLe as bs

/-- Code-point lexicographic order on strings (the Python string order). -/
def strLeRel (a b : String) : Prop := charListLe a.data b.data = true

instance : DecidableRel strLeRel :=
  fun a b => inferInstanceAs (Decidable (charListLe a.data b.data = true))

/-- Group keys of `df_daytime.groupby('Country')`: the distinct country tags,
iterated in sorted order (pandas groupby default `sort=True`). The keys are
distinct and sorted, so the result does not depend on which occurrence of
each tag the deduplication keeps. -/
def groupKeys (df : DataFrame) : List String :=
  ((daytimeRows df).map (·.entity)).dedup.insertionSort strLeRel

/-- GHI values of one country group of the filtered frame. -/
def groupVals (df : DataFrame) (c : String) : List ℚ :=
  (daytimeRows df).filterMap
    (fun r => if r.entity = c then r.get "GHI" else none)

/-- Arithmetic mean of a list of rationals. -/
def meanQ (l : List ℚ) : ℚ := l.sum / (l.length : ℚ)

/-- The per-group means `df_daytime.groupby('Country')['GHI'].mean()`, one
(country, mean) pair per group key, in group-key iteration order. -/
def groupMeans (df : DataFrame) : List (String × ℚ) :=
  (groupKeys df).map (fun c => (c, meanQ (groupVals df c)))

/-- Descending comparison on (country, mean) pairs: `a` may precede `b` when
the mean of `b` is at most the mean of `a`. -/
def ghiDescRel (a b : String × ℚ) : Prop := b.2 ≤ a.2

instance : DecidableRel ghiDescRel :=
  fun a b => inferInstanceAs (Decidable (b.2 ≤ a.2))

instance : IsTrans (String × ℚ) ghiDescRel :=
  ⟨fun _ _ _ h1 h2 => le_trans h2 h1⟩

instance : IsTotal (String × ℚ) ghiDescRel :=
  ⟨fun a b => le_total b.2 a.2⟩

/-- The `.sort_values(ascending=False)` step: stable descending sort of the
group means by mean value (a stable structural sort, extensionally equal to
any stable sorting algorithm). -/
def sortedGroups (df : DataFrame) : List (String × ℚ) :=
  (groupMeans df).insertionSort ghiDescRel

/-- The message of the no-qualifying-rows frame of `create_ghi_ranking_table`. -/
def rankingNoDataMsg : String :=
  "No daytime GHI data (GHI > 50 W/m^2) available for ranking."

/-- Shape of the frame returned by `create_ghi_ranking_table`: the empty
frame, the single-row `Message` frame, or the ranking table whose index was
shifted to start at 1 (each entry is rank, country, average daytime GHI). -/
inductive RankingResult where
  | empty : RankingResult
  | noData (msg : String) : RankingResult
  | ranked (entries : List (Nat × String × ℚ)) : RankingResult
deriving DecidableEq, Repr

/-- The ranking engine `create_ghi_ranking_table`: empty frame on empty input
or missing GHI column; a one-entry message frame when no row passes the
GHI > 50 filter; otherwise the groups sorted by mean descending with 1-based
ranks from sorted position. -/
def create_ghi_ranking_table (df_combined : DataFrame) : RankingResult :=
  if df_combined.isEmptyDF || !(df_combined.cols.contains "GHI") then .empty
  else if (daytimeRows df_combined).isEmpty then .noData rankingNoDataMsg
  else .ranked ((sortedGroups df_combined).enum.map
    (fun ip => (ip.1 + 1, ip.2)))

/-- Specification-side description (for the ranking claims): the GHI values
of the rows of `df` tagged with country `c` whose GHI is strictly above 50,
in row order. -/
def entityPassingGhis (df : DataFrame) (c : String) : List ℚ :=
  df.rows.filterMap (fun r =>
    if r.entity = c then
      match r.get "GHI" with
      | some v => if 50 < v then some v else none
      | none => none
    else none)

/-! ### Concrete fixtures used by the witness theorems -/

/-- Example frame of the ranking-determinism property: one country `X` with
GHI values 10, 60, 80. -/
def ghiExampleDF : DataFrame :=
  ⟨["GHI", "Country"],
   [⟨"t1", "X", [("GHI", 10)]⟩, ⟨"t2", "X", [("GHI", 60)]⟩,
    ⟨"t3", "X", [("GHI", 80)]⟩]⟩

/-- Two-country frame: `Y` has mean 100, `Z` has mean 60 above the filter. -/
def twoCountryDF : DataFrame :=
  ⟨["GHI", "Country"],
   [⟨"t1", "Z", [("GHI", 60)]⟩, ⟨"t2", "Y", [("GHI", 100)]⟩,
    ⟨"t3", "Y", [("GHI", 20)]⟩]⟩

/-- Frame whose rows all fail the GHI > 50 filter. -/
def nightOnlyDF : DataFrame :=
  ⟨["GHI", "Country"], [⟨"t1", "X", [("GHI", 30)]⟩]⟩

/-- Frame without a DNI column. -/
def noDniDF : DataFrame :=
  ⟨["GHI", "Country"], [⟨"t1", "X", [("GHI", 80)]⟩]⟩

/-- File system with a valid Benin file at the module-relative path. -/
def fsGood : FileSystem :=
  ⟨[("app/../data/benin_clean.csv",
     .parsed ⟨["GHI"], [("2021-01-01 12:00", [("GHI", 100)])]⟩)]⟩

/-- File system whose Togo file exists only at the cwd-relative path and is
malformed, so `pd.read_csv` raises. -/
def fsMalformed : FileSystem :=
  ⟨[("data/togo_clean.csv", .malformed "ParserError")]⟩

/-! ### Helper lemmas -/

/-- Filtering on the GHI predicate first and then extracting one country's
GHI cells is extracting that country's above-threshold GHI cells. -/
theorem filter_ghi_filterMap (rows : List Row) (c : String) :
    (rows.filter rowPassesGhi).filterMap
        (fun r => if r.entity = c then r.get "GHI" else none) =
      rows.filterMap (fun r =>
        if r.entity = c then
          match r.get "GHI" with
          | some v => if 50 < v then some v else none
          | none => none
        else none) := by
  induction rows with
  | nil => rfl
  | cons r rest ih =>
    by_cases hpass : rowPassesGhi r
    · have hfil : (r :: rest).filter rowPassesGhi =
          r :: rest.filter rowPassesGhi := by
        simp [List.filter, hpass]
      rw [hfil]
      unfold rowPassesGhi at hpass
      rcases hv : r.get "GHI" with _ | v
      · rw [hv] at hpass; simp at hpass
      · rw [hv] at hpass
        simp only [decide_eq_true_eq] at hpass
        by_cases hc : r.entity = c
        · simp [List.filterMap_cons, hc, hv, hpass, ih]
        · simp [List.filterMap_cons, hc, ih]
    · have hfil : (r :: rest).filter rowPassesGhi =
          rest.filter rowPassesGhi := by
        simp [List.filter, hpass]
      rw [hfil]
      unfold rowPassesGhi at hpass
      rcases hv : r.get "GHI" with _ | v
      · rw [hv] at hpass
        by_cases hc : r.entity = c
        · simp [List.filterMap_cons, hc, hv, ih]
        · simp [List.filterMap_cons, hc, ih]
      · rw [hv] at hpass
        simp only [decide_eq_true_eq] at hpass
        by_cases hc : r.entity = c
        · simp [List.filterMap_cons, hc, hv, hpass, ih]
        · simp [List.filterMap_cons, hc, ih]

/-- The group GHI values of a country coincide with the specification-side
description of that country's retained GHI values. -/
theorem groupVals_eq_entityPassingGhis (df : DataFrame) (c : String) :
    groupVals df c = entityPassingGhis df c :=
  filter_ghi_filterMap df.rows c

/-- A country is a group key exactly when it tags some retained row. -/
theorem mem_groupKeys_iff (df : DataFrame) (c : String) :
    c ∈ groupKeys df ↔ c ∈ (daytimeRows df).map (·.entity) := by
  unfold groupKeys
  rw [(List.perm_insertionSort _ _).mem_iff, List.mem_dedup]

/-- A country's retained GHI list is non-empty exactly when it is a group
key. -/
theorem entityPassingGhis_ne_nil_iff (df : DataFrame) (c : String) :
    entityPassingGhis df c ≠ [] ↔ c ∈ groupKeys df := by
  rw [mem_groupKeys_iff, ← groupVals_eq_entityPassingGhis]
  unfold groupVals
  constructor
  · intro hne
    rcases List.exists_mem_of_ne_nil _ hne with ⟨v, hv⟩
    rcases List.mem_filterMap.mp hv with ⟨r, hr, hfr⟩
    by_cases hc : r.entity = c
    · exact List.mem_map.mpr ⟨r, hr, hc⟩
    · simp [hc] at hfr
  · intro hc
    rcases List.mem_map.mp hc with ⟨r, hr, hrc⟩
    have hpass : rowPassesGhi r = true := (List.mem_filter.mp hr).2
    unfold rowPassesGhi at hpass
    rcases hv : r.get "GHI" with _ | v
    · rw [hv] at hpass; simp at hpass
    · intro hnil
      have : (v : ℚ) ∈ ([] : List ℚ) := by
        rw [← hnil]
        exact List.mem_filterMap.mpr ⟨r, hr, by simp [hrc, hv]⟩
      simp at this

/-- The ranked entries with ranks stripped are exactly the sorted groups. -/
theorem entries_map_snd (l : List (String × ℚ)) :
    (l.enum.map (fun ip => (ip.1 + 1, ip.2))).map (fun e => e.2) = l := by
  rw [List.map_map]
  exact List.enum_map_snd l

/-- The ranks of the ranked entries are 1, 2, ... in order. -/
theorem entries_map_fst (l : List (String × ℚ)) :
    (l.enum.map (fun ip => (ip.1 + 1, ip.2))).map (fun e => e.1) =
      List.range' 1 l.length := by
  rw [List.map_map, List.range'_eq_map_range]
  have h1 : ((fun e => e.1) ∘ fun ip : Nat × (String × ℚ) => (ip.1 + 1, ip.2)) =
      (fun n => n + 1) ∘ Prod.fst := rfl
  rw [h1, ← List.map_map, List.enum_map_fst]
  refine List.map_congr_left ?_
  intro a _
  exact Nat.add_comm a 1

/-- Dropping row-empty frames before flattening the rows changes nothing. -/
theorem filter_nonempty_flatMap_rows (dfl : List DataFrame) :
    (dfl.filter (fun df => !df.isEmptyDF)).flatMap (·.rows) =
      dfl.flatMap (·.rows) := by
  induction dfl with
  | nil => rfl
  | cons d rest ih =>
    by_cases hd : d.isEmptyDF
    · have hrows : d.rows = [] := by
        unfold DataFrame.isEmptyDF at hd
        exact List.isEmpty_iff.mp hd
      simp [List.filter, hd, ih, hrows]
    · simp [List.filter, hd, ih]

/-! ### Claim theorems -/

/-- C5: for every country name outside {Benin, Sierra Leone, Togo}, the
loader returns an empty frame without raising, emits no diagnostic, probes
no path and reads no file. -/
theorem c5_unknown_country_empty (fs : FileSystem) (moduleDir name : String)
    (h1 : name ≠ "Benin") (h2 : name ≠ "Sierra Leone") (h3 : name ≠ "Togo") :
    load_country_data fs moduleDir name = ⟨emptyDF, [], 0, 0⟩ := by
  simp [load_country_data, filename_map, h1, h2, h3]

/-- C5 witness: loading "Atlantis" on a file system that does hold valid
data files yields the empty frame with no path probe and no read. -/
theorem c5_unknown_country_empty_witness :
    load_country_data fsGood "app" "Atlantis" = ⟨emptyDF, [], 0, 0⟩ :=
  c5_unknown_country_empty fsGood "app" "Atlantis"
    (by decide) (by decide) (by decide)

/-- C6: path resolution tries the module-relative path then the cwd-relative
path, first existing path wins; with both paths missing the loader returns
an empty frame plus a user-visible diagnostic; a resolved path is the one
read and stamped; and the country-to-filename mapping is fixed. -/
theorem c6_path_resolution :
    (∀ (fs : FileSystem) (md fn : String),
      ((fs.lookup (modulePath md fn)).isSome →
        resolve_path fs md fn = some (modulePath md fn)) ∧
      (¬(fs.lookup (modulePath md fn)).isSome →
        (fs.lookup (cwdPath fn)).isSome →
        resolve_path fs md fn = some (cwdPath fn)) ∧
      (¬(fs.lookup (modulePath md fn)).isSome →
        ¬(fs.lookup (cwdPath fn)).isSome →
        resolve_path fs md fn = none)) ∧
    (∀ (fs : FileSystem) (md name fn p : String) (csv : CSVData),
      filename_map name = some fn →
      resolve_path fs md fn = some p →
      read_file fs p = .ok csv →
      (load_country_data fs md name).df = stampDf name csv ∧
      (load_country_data fs md name).errors = []) ∧
    (∀ (fs : FileSystem) (md name fn : String),
      filename_map name = some fn →
      resolve_path fs md fn = none →
      (load_country_data fs md name).df = emptyDF ∧
      (load_country_data fs md name).errors = [pathErrMsg fn]) ∧
    filename_map "Benin" = some "benin_clean.csv" ∧
    filename_map "Sierra Leone" = some "sierraleone_clean.csv" ∧
    filename_map "Togo" = some "togo_clean.csv" ∧
    (∀ md fn, modulePath md fn = md ++ "/../data/" ++ fn ∧
      cwdPath fn = "data/" ++ fn) := by
  refine ⟨?_, ?_, ?_, by decide, by decide, by decide, fun _ _ => ⟨rfl, rfl⟩⟩
  · intro fs md fn
    refine ⟨fun h1 => ?_, fun h1 h2 => ?_, fun h1 h2 => ?_⟩
    · simp [resolve_path, h1]
    · simp [resolve_path, h1, h2]
    · simp [resolve_path, h1, h2]
  · intro fs md name fn p csv hmap hres hread
    simp only [load_country_data, hmap, hres, hread]
    exact ⟨trivial, trivial⟩
  · intro fs md name fn hmap hres
    simp only [load_country_data, hmap, hres]
    exact ⟨trivial, trivial⟩

/-- C6 witness: on a file system whose Benin file sits at the
module-relative path, that path resolves and the loaded frame is the parsed
file stamped with the country tag. -/
theorem c6_path_resolution_witness :
    (load_country_data fsGood "app" "Benin").df =
      stampDf "Benin" ⟨["GHI"], [("2021-01-01 12:00", [("GHI", 100)])]⟩ ∧
    (load_country_data fsGood "app" "Benin").errors = [] :=
  c6_path_resolution.2.1 fsGood "app" "Benin" "benin_clean.csv"
    "app/../data/benin_clean.csv" ⟨["GHI"], [("2021-01-01 12:00", [("GHI", 100)])]⟩
    (by decide) (by decide) (by rfl)

/-- C7: a read or parse failure at the resolved path is caught inside the
loader, surfaced as a diagnostic carrying the exception text, and converted
to an empty-frame return value (the loader itself is a total function, so no
exception ever reaches the caller). -/
theorem c7_failures_caught (fs : FileSystem) (md name fn p e : String)
    (hmap : filename_map name = some fn)
    (hres : resolve_path fs md fn = some p)
    (hread : read_file fs p = .error e) :
    (load_country_data fs md name).df = emptyDF ∧
    (load_country_data fs md name).errors = [loadErrMsg name e] := by
  simp only [load_country_data, hmap, hres, hread]
  exact ⟨trivial, trivial⟩

/-- C7 witness: a malformed Togo file at the cwd-relative path degrades to
the empty frame plus the diagnostic carrying the parser error. -/
theorem c7_failures_caught_witness :
    (load_country_data fsMalformed "app" "Togo").df = emptyDF ∧
    (load_country_data fsMalformed "app" "Togo").errors =
      [loadErrMsg "Togo" "ParserError"] :=
  c7_failures_caught fsMalformed "app" "Togo" "togo_clean.csv"
    "data/togo_clean.csv" "ParserError" (by decide) (by decide) (by rfl)

/-- C9: with the backing file system unchanged, a second cached-loader call
with the same country name returns the same frame as the first and leaves
the memoisation state untouched, so in particular the file-read counter does
not advance: the body runs at most once per key. -/
theorem c9_cache_idempotent (fs : FileSystem) (md name : String)
    (s : CacheState) :
    (load_country_data_cached fs md name
        (load_country_data_cached fs md name s).2).1 =
      (load_country_data_cached fs md name s).1 ∧
    (load_country_data_cached fs md name
        (load_country_data_cached fs md name s).2).2 =
      (load_country_data_cached fs md name s).2 ∧
    (load_country_data_cached fs md name
        (load_country_data_cached fs md name s).2).2.reads =
      (load_country_data_cached fs md name s).2.reads := by
  rcases h : s.cache.lookup name with _ | df
  · simp [load_country_data_cached, h, List.lookup]
  · simp [load_country_data_cached, h]

/-- C10: the aggregator called with an empty country list returns the empty
frame without raising, while the unguarded concatenation of zero frames
would fail; the emptiness guard returns before concatenation is reached. -/
theorem c10_empty_list_guard (fs : FileSystem) (md : String) :
    load_all_countries_data fs md [] = .ok emptyDF ∧
    pd_concat [] = .error "No objects to concatenate" := by
  constructor
  · rfl
  · rfl

/-- C8: the comparison-projection helper returns `none` exactly when the
frame is empty or the metric is not among its columns; otherwise it returns
the (Country, metric) projection of the rows together with the title. -/
theorem c8_projection_absent_iff (df : DataFrame) (metric title : String) :
    (create_comparison_boxplot df metric title = none ↔
      (df.rows = [] ∨ metric ∉ df.cols)) ∧
    (df.rows ≠ [] → metric ∈ df.cols →
      create_comparison_boxplot df metric title =
        some ⟨df.rows.map (fun r => (r.entity, r.get metric)),
              metric, title⟩) := by
  constructor
  · by_cases hempty : df.rows = []
    · simp [create_comparison_boxplot, DataFrame.isEmptyDF, hempty]
    · by_cases hcol : metric ∈ df.cols
      · simp [create_comparison_boxplot, DataFrame.isEmptyDF, hempty, hcol]
      · simp [create_comparison_boxplot, DataFrame.isEmptyDF, hempty, hcol]
  · intro hrows hcol
    simp [create_comparison_boxplot, DataFrame.isEmptyDF, hrows, hcol]

/-- C8 witness: a frame without a DNI column yields `none` for DNI, and the
same frame yields the (Country, GHI) projection for GHI. -/
theorem c8_projection_absent_iff_witness :
    create_comparison_boxplot noDniDF "DNI" "t" = none ∧
    create_comparison_boxplot noDniDF "GHI" "t" =
      some ⟨noDniDF.rows.map (fun r => (r.entity, r.get "GHI")), "GHI", "t"⟩ :=
  ⟨(c8_projection_absent_iff noDniDF "DNI" "t").1.mpr (by decide),
   (c8_projection_absent_iff noDniDF "GHI" "t").2 (by decide) (by decide)⟩

/-- C4: the ranking engine distinguishes its two degraded outcomes without
raising: an empty frame or a frame without a GHI column yields the empty
result, while a non-empty frame with a GHI column but no row above the
threshold yields the single non-empty human-readable no-data message. -/
theorem c4_degraded_outcomes (df : DataFrame) :
    ((df.rows = [] ∨ "GHI" ∉ df.cols) →
      create_ghi_ranking_table df = .empty) ∧
    (df.rows ≠ [] → "GHI" ∈ df.cols → daytimeRows df = [] →
      create_ghi_ranking_table df = .noData rankingNoDataMsg) ∧
    rankingNoDataMsg ≠ "" := by
  refine ⟨?_, ?_, by decide⟩
  · intro h
    rcases h with h | h
    · simp [create_ghi_ranking_table, DataFrame.isEmptyDF, h]
    · simp [create_ghi_ranking_table, DataFrame.isEmptyDF, h]
  · intro hrows hcol hday
    simp [create_ghi_ranking_table, DataFrame.isEmptyDF, hrows, hcol, hday]

/-- C4 witness: the empty frame yields the empty result, and a one-row frame
whose only GHI value is 30 yields the no-data message. -/
theorem c4_degraded_outcomes_witness :
    create_ghi_ranking_table emptyDF = .empty ∧
    create_ghi_ranking_table nightOnlyDF = .noData rankingNoDataMsg :=
  ⟨(c4_degraded_outcomes emptyDF).1 (Or.inl rfl),
   (c4_degraded_outcomes nightOnlyDF).2.1 (by decide) (by decide) (by decide)⟩

/-- C2: the aggregator never raises; its combined frame's rows are exactly
the concatenation, in country-list order, of each country's loaded rows in
their original order (rows and timestamps unchanged, empty loads
contributing nothing); and when every load is empty it returns the empty
frame. -/
theorem c2_aggregator_concat (fs : FileSystem) (md : String)
    (country_list : List String) :
    ∃ d, load_all_countries_data fs md country_list = .ok d ∧
      d.rows = country_list.flatMap
        (fun c => (load_country_data fs md c).df.rows) ∧
      ((∀ c ∈ country_list, (load_country_data fs md c).df.rows = []) →
        d = emptyDF) := by
  rcases h : (country_list.map
      (fun c => (load_country_data fs md c).df)).filter
      (fun df => !df.isEmptyDF) with _ | ⟨d0, rest⟩
  · refine ⟨emptyDF, ?_, ?_, fun _ => rfl⟩
    · unfold load_all_countries_data
      rw [h]
      rfl
    · have hall : ∀ df ∈ country_list.map
          (fun c => (load_country_data fs md c).df), df.rows = [] := by
        intro df hdf
        have := List.filter_eq_nil_iff.mp h df hdf
        simp only [Bool.not_eq_true, Bool.not_not] at this
        exact List.isEmpty_iff.mp (by simpa [DataFrame.isEmptyDF] using this)
      have : country_list.flatMap
          (fun c => (load_country_data fs md c).df.rows) = [] := by
        rw [← List.flatMap_map (fun c => (load_country_data fs md c).df)
          (fun df => df.rows) country_list]
        exact List.flatMap_eq_nil_iff.mpr hall
      rw [this]
      rfl
  · refine ⟨⟨(((d0 :: rest).flatMap (·.cols))).eraseDups,
      (d0 :: rest).flatMap (·.rows)⟩, ?_, ?_, ?_⟩
    · unfold load_all_countries_data
      rw [h]
      rfl
    · have h2 := filter_nonempty_flatMap_rows
        (country_list.map (fun c => (load_country_data fs md c).df))
      rw [h] at h2
      rw [h2, List.flatMap_map]
    · intro hall
      have hfil : (country_list.map
          (fun c => (load_country_data fs md c).df)).filter
          (fun df => !df.isEmptyDF) = [] := by
        apply List.filter_eq_nil_iff.mpr
        intro df hdf
        rcases List.mem_map.mp hdf with ⟨c, hc, hdfc⟩
        have : df.rows = [] := by rw [← hdfc]; exact hall c hc
        simp [DataFrame.isEmptyDF, this]
      rw [h] at hfil
      exact absurd hfil (by simp)

/-- C2 witness: aggregating Benin and Togo over a file system holding only a
valid Benin file gives a frame whose rows are the concatenation of the two
loads' rows (Togo contributing nothing). -/
theorem c2_aggregator_concat_witness :
    ∃ d, load_all_countries_data fsGood "app" ["Benin", "Togo"] = .ok d ∧
      d.rows = ["Benin", "Togo"].flatMap
        (fun c => (load_country_data fsGood "app" c).df.rows) ∧
      ((∀ c ∈ ["Benin", "Togo"],
          (load_country_data fsGood "app" c).df.rows = []) → d = emptyDF) :=
  c2_aggregator_concat fsGood "app" ["Benin", "Togo"]

/-- C1: on a non-empty combined frame with a GHI column and at least one row
above the threshold, the ranking result keeps exactly the rows with GHI
strictly above 50 and assigns each listed country the arithmetic mean of its
retained GHI values, every country with a retained row being listed; in
particular a country whose GHI values are 10, 60, 80 gets mean 70. -/
theorem c1_ranking_filter_mean :
    (∀ df : DataFrame, "GHI" ∈ df.cols →
      (∃ r ∈ df.rows, rowPassesGhi r) →
      ∃ entries, create_ghi_ranking_table df = .ranked entries ∧
        (∀ e ∈ entries, e.2.2 = meanQ (entityPassingGhis df e.2.1) ∧
          entityPassingGhis df e.2.1 ≠ []) ∧
        (∀ c : String, entityPassingGhis df c ≠ [] →
          ∃ e ∈ entries, e.2.1 = c)) ∧
    create_ghi_ranking_table ghiExampleDF = .ranked [(1, "X", 70)] := by
  constructor
  · intro df hcol hpass
    rcases hpass with ⟨r, hr, hrpass⟩
    have hrows : df.rows ≠ [] := List.ne_nil_of_mem hr
    have hday : daytimeRows df ≠ [] :=
      List.ne_nil_of_mem (List.mem_filter.mpr ⟨hr, hrpass⟩)
    have hranked : create_ghi_ranking_table df =
        .ranked ((sortedGroups df).enum.map (fun ip => (ip.1 + 1, ip.2))) := by
      simp [create_ghi_ranking_table, DataFrame.isEmptyDF, hrows, hcol, hday]
    refine ⟨_, hranked, ?_, ?_⟩
    · intro e he
      have hsnd : e.2 ∈ sortedGroups df := by
        rw [← entries_map_snd (sortedGroups df)]
        exact List.mem_map.mpr ⟨e, he, rfl⟩
      have hgm : e.2 ∈ groupMeans df :=
        (List.perm_insertionSort _ _).mem_iff.mp hsnd
      rcases List.mem_map.mp hgm with ⟨c, hc, hce⟩
      have h1 : e.2.1 = c := by rw [← hce]
      have h2 : e.2.2 = meanQ (groupVals df c) := by rw [← hce]
      rw [h1, h2, groupVals_eq_entityPassingGhis]
      exact ⟨rfl, (entityPassingGhis_ne_nil_iff df c).mpr hc⟩
    · intro c hc
      have hkey : c ∈ groupKeys df := (entityPassingGhis_ne_nil_iff df c).mp hc
      have hgm : (c, meanQ (groupVals df c)) ∈ groupMeans df :=
        List.mem_map.mpr ⟨c, hkey, rfl⟩
      have hsg : (c, meanQ (groupVals df c)) ∈ sortedGroups df :=
        (List.perm_insertionSort _ _).mem_iff.mpr hgm
      have : (c, meanQ (groupVals df c)) ∈
          ((sortedGroups df).enum.map (fun ip => (ip.1 + 1, ip.2))).map
            (fun e => e.2) := by
        rw [entries_map_snd]
        exact hsg
      rcases List.mem_map.mp this with ⟨e, he, hec⟩
      exact ⟨e, he, by rw [hec]⟩
  · norm_num [create_ghi_ranking_table, ghiExampleDF, daytimeRows,
      sortedGroups, groupMeans, groupKeys, groupVals, meanQ, rowPassesGhi,
      Row.get, DataFrame.isEmptyDF, strLeRel, charListLe,
      List.insertionSort, List.orderedInsert, List.filterMap, List.filter,
      List.lookup, List.dedup, List.enum, List.enumFrom]

/-- C1 witness: instantiating the general part on the example frame whose
country X has GHI values 10, 60, 80. -/
theorem c1_ranking_filter_mean_witness :
    ∃ entries, create_ghi_ranking_table ghiExampleDF = .ranked entries ∧
      (∀ e ∈ entries,
        e.2.2 = meanQ (entityPassingGhis ghiExampleDF e.2.1) ∧
        entityPassingGhis ghiExampleDF e.2.1 ≠ []) ∧
      (∀ c : String, entityPassingGhis ghiExampleDF c ≠ [] →
        ∃ e ∈ entries, e.2.1 = c) :=
  c1_ranking_filter_mean.1 ghiExampleDF (by decide) (by decide)

/-- The mean values of the ranked entries, in order, are the mean values of
the sorted groups. -/
theorem entries_map_snd_snd (l : List (String × ℚ)) :
    (l.enum.map (fun ip => (ip.1 + 1, ip.2))).map (fun e => e.2.2) =
      l.map (fun p => p.2) := by
  calc (l.enum.map (fun ip => (ip.1 + 1, ip.2))).map (fun e => e.2.2)
      = (l.enum.map Prod.snd).map (fun p => p.2) := by
        rw [List.map_map, List.map_map]
        rfl
    _ = l.map (fun p => p.2) :=
        congrArg (List.map (fun p : String × ℚ => p.2)) (List.enum_map_snd l)

/-- C3: when at least two countries have rows passing the filter, the
ranking lists the groups sorted by mean descending; groups with equal means
keep their relative group-key iteration order (the sort is stable); the rank
of each entry is its 1-based position in the sorted order; and the listed
groups are exactly the computed group means. -/
theorem c3_ranking_sorted_stable (df : DataFrame)
    (hcol : "GHI" ∈ df.cols) (htwo : 2 ≤ (groupKeys df).length) :
    ∃ entries, create_ghi_ranking_table df = .ranked entries ∧
      (entries.map (fun e => e.2.2)).Pairwise (· ≥ ·) ∧
      (∀ p q : String × ℚ, [p, q].Sublist (groupMeans df) → p.2 = q.2 →
        [p, q].Sublist (entries.map (fun e => e.2))) ∧
      entries.map (fun e => e.1) = List.range' 1 entries.length ∧
      (entries.map (fun e => e.2)).Perm (groupMeans df) := by
  have hday : daytimeRows df ≠ [] := by
    intro h0
    rw [groupKeys, h0] at htwo
    simp [List.insertionSort] at htwo
  have hrows : df.rows ≠ [] := by
    intro h0
    exact hday (by rw [daytimeRows, h0]; rfl)
  have hranked : create_ghi_ranking_table df =
      .ranked ((sortedGroups df).enum.map (fun ip => (ip.1 + 1, ip.2))) := by
    simp [create_ghi_ranking_table, DataFrame.isEmptyDF, hrows, hcol, hday]
  refine ⟨_, hranked, ?_, ?_, ?_, ?_⟩
  · have hsorted : (sortedGroups df).Pairwise ghiDescRel :=
      List.sorted_insertionSort ghiDescRel (groupMeans df)
    have hmap : ((sortedGroups df).map (fun p => p.2)).Pairwise (· ≥ ·) :=
      List.Pairwise.map _ (fun a b hab => hab) hsorted
    rw [entries_map_snd_snd]
    exact hmap
  · intro p q hsub hpq
    have hrel : ghiDescRel p q := le_of_eq hpq.symm
    have : [p, q].Sublist (sortedGroups df) :=
      List.pair_sublist_insertionSort hrel hsub
    rw [entries_map_snd]
    exact this
  · rw [entries_map_fst, List.length_map, List.enum_length]
  · rw [entries_map_snd]
    exact List.perm_insertionSort ghiDescRel (groupMeans df)

/-- C3 witness: instantiating the ordering properties on the two-country
frame, whose countries Y and Z both pass the filter. -/
theorem c3_ranking_sorted_stable_witness :
    ∃ entries, create_ghi_ranking_table twoCountryDF = .ranked entries ∧
      (entries.map (fun e => e.2.2)).Pairwise (· ≥ ·) ∧
      (∀ p q : String × ℚ, [p, q].Sublist (groupMeans twoCountryDF) →
        p.2 = q.2 → [p, q].Sublist (entries.map (fun e => e.2))) ∧
      entries.map (fun e => e.1) = List.range' 1 entries.length ∧
      (entries.map (fun e => e.2)).Perm (groupMeans twoCountryDF) :=
  c3_ranking_sorted_stable twoCountryDF (by decide) (by decide)
